import Mathlib

/-!
# Verification of the vispy `Mesh` visual (`vispy/scene/visuals/mesh.py`)

A shallow embedding of the mesh visual: the geometry materializer
(`_update_data`), the pipeline bindings (color source, phong lighting),
the `set_data` / `mesh_data_changed` / `draw` state machine and the
`shading` property, together with theorems settling the specification
claims about them.

Scalars are modelled as rationals (the Python code uses numpy float
arrays; the claims under scrutiny are structural, not about rounding).
The phong lighting formula, which involves `normalize` (a square root),
is modelled over the reals in a separate section.

The mesh-geometry container `MeshData` (`vispy.util.meshdata`) is an
external collaborator whose source is not part of the core under
verification; its accessors are modelled from the specification's
interface description (each such definition is marked
`Modelled from the spec:`).
-/

namespace MeshVisual

/-- A 3-component vector of rationals (a vertex position or a normal). -/
abbrev Vec3 := ℚ × ℚ × ℚ

/-- An RGBA color with rational components. -/
abbrev RGBA := ℚ × ℚ × ℚ × ℚ

/-- A face: a triple of vertex indices. -/
abbrev Face := ℕ × ℕ × ℕ

/-- The two lit shading modes; the unlit mode is `Option.none` at use sites,
mirroring Python's `None` / `'flat'` / `'smooth'`. -/
inductive Shading where
  | flat
  | smooth
deriving DecidableEq, Repr

/-- A value passed to the `shading` property setter: one of the three
accepted values, or any other (invalid) Python value, carried as a tag. -/
inductive ShadingVal where
  | vnone
  | vflat
  | vsmooth
  | other (tag : String)
deriving DecidableEq, Repr

/-- Modelled from the spec: the mesh geometry container (`MeshData`,
`vispy.util.meshdata`, not part of the core source).  It stores vertex
positions, face index triples, optional per-vertex and per-face colors,
and answers the query predicate "has face-only data requiring
expansion" (`has_face_indexed_data`), here an abstract boolean field. -/
structure MeshData where
  verts : List Vec3
  faces : List Face
  vertex_colors : Option (List RGBA)
  face_colors : Option (List RGBA)
  face_indexed_data : Bool
deriving DecidableEq, Repr

namespace MeshData

/-- Modelled from the spec: `has_vertex_color` — whether per-vertex
colors were supplied. -/
def has_vertex_color (md : MeshData) : Bool := md.vertex_colors.isSome

/-- Modelled from the spec: `has_face_color` — whether per-face colors
were supplied. -/
def has_face_color (md : MeshData) : Bool := md.face_colors.isSome

/-- Modelled from the spec: faces reference only in-range vertex
indices (the container raises `InvalidMeshError` otherwise when asked
to derive normals or per-face-expanded arrays). -/
def validFaces (md : MeshData) : Bool :=
  md.faces.all fun t => t.1 < md.verts.length
    && t.2.1 < md.verts.length && t.2.2 < md.verts.length

/-- Vertex `i` of the mesh (defaulting to the origin out of range;
every guarded use is in range). -/
def vert (md : MeshData) (i : ℕ) : Vec3 := md.verts.getD i (0, 0, 0)

/-- Componentwise difference of 3-vectors. -/
def sub3 (a b : Vec3) : Vec3 := (a.1 - b.1, a.2.1 - b.2.1, a.2.2 - b.2.2)

/-- Componentwise sum of 3-vectors. -/
def add3 (a b : Vec3) : Vec3 := (a.1 + b.1, a.2.1 + b.2.1, a.2.2 + b.2.2)

/-- Cross product of 3-vectors. -/
def cross3 (a b : Vec3) : Vec3 :=
  (a.2.1 * b.2.2 - a.2.2 * b.2.1,
   a.2.2 * b.1 - a.1 * b.2.2,
   a.1 * b.2.1 - a.2.1 * b.1)

/-- Modelled from the spec: the (unnormalized) normal of one face,
derived from its three corner positions. -/
def faceNormal (md : MeshData) (t : Face) : Vec3 :=
  cross3 (sub3 (md.vert t.2.1) (md.vert t.1)) (sub3 (md.vert t.2.2) (md.vert t.1))

/-- Whether vertex `i` is a corner of face `t`. -/
def memFace (i : ℕ) (t : Face) : Bool := t.1 = i || t.2.1 = i || t.2.2 = i

/-- Modelled from the spec: the derived per-vertex normal of vertex `i`
(sum of the normals of the faces sharing the vertex). -/
def vertexNormal (md : MeshData) (i : ℕ) : Vec3 :=
  (md.faces.filter (memFace i)).foldr (fun t acc => add3 (faceNormal md t) acc) (0, 0, 0)

/-- Modelled from the spec: `vertex_normals()` — one derived normal per
vertex, in shared (indexed) form; fails when faces are out of range. -/
def vertex_normals (md : MeshData) : Option (List Vec3) :=
  if md.validFaces then
    some ((List.range md.verts.length).map (md.vertexNormal))
  else none

/-- Expansion of a per-face triple of values into the flat per-corner
list: face after face, three entries per face. -/
def concat3 {α : Type} (g : Face → List α) : List Face → List α
  | [] => []
  | t :: ts => g t ++ concat3 g ts

/-- Modelled from the spec: `vertices(indexed='faces')` — one position
per face corner, duplicating shared vertices; fails when faces are out
of range. -/
def vertices_indexed (md : MeshData) : Option (List Vec3) :=
  if md.validFaces then
    some (concat3 (fun t => [md.vert t.1, md.vert t.2.1, md.vert t.2.2]) md.faces)
  else none

/-- Modelled from the spec: `vertex_normals(indexed='faces')` — the
derived per-vertex normals, one per face corner. -/
def vertex_normals_indexed (md : MeshData) : Option (List Vec3) :=
  if md.validFaces then
    some (concat3 (fun t =>
      [md.vertexNormal t.1, md.vertexNormal t.2.1, md.vertexNormal t.2.2]) md.faces)
  else none

/-- Modelled from the spec: `face_normals(indexed='faces')` — each of
the three corners of a face receives that face's normal. -/
def face_normals_indexed (md : MeshData) : Option (List Vec3) :=
  if md.validFaces then
    some (concat3 (fun t =>
      let n := md.faceNormal t
      [n, n, n]) md.faces)
  else none

/-- Modelled from the spec: `vertex_colors()` in shared (indexed)
form: the stored per-vertex color list. -/
def vertex_colors_arr (md : MeshData) : List RGBA := md.vertex_colors.getD []

/-- Modelled from the spec: `face_colors()` in shared (indexed) form:
the stored per-face color list. -/
def face_colors_arr (md : MeshData) : List RGBA := md.face_colors.getD []

/-- Color of vertex `i` (defaulting out of range; guarded uses are in
range). -/
def vcolor (md : MeshData) (i : ℕ) : RGBA := md.vertex_colors_arr.getD i (0, 0, 0, 0)

/-- Modelled from the spec: `vertex_colors(indexed='faces')` — the
per-vertex colors, one per face corner; fails when faces are out of
range. -/
def vertex_colors_indexed (md : MeshData) : Option (List RGBA) :=
  if md.validFaces then
    some (concat3 (fun t => [md.vcolor t.1, md.vcolor t.2.1, md.vcolor t.2.2]) md.faces)
  else none

/-- Each entry of a list repeated three times, in order (one entry per
face becomes one entry per face corner). -/
def triple {α : Type} : List α → List α
  | [] => []
  | x :: xs => x :: x :: x :: triple xs

/-- Modelled from the spec: `face_colors(indexed='faces')` — each of
the three corners of face `i` receives per-face color `i`. -/
def face_colors_indexed (md : MeshData) : List RGBA :=
  triple md.face_colors_arr

end MeshData

/-- The color input binding of the shading pipeline: either the uniform
RGBA constant, or the per-vertex/per-face color attribute array (the
contents of the `_colors` vertex buffer). -/
inductive ColorSource where
  | uniform (c : RGBA)
  | attrib (data : List RGBA)
deriving DecidableEq, Repr

/-- The fragment-color binding of the program (`frag['color']`): either
the color varying passed through unchanged (`shading is None`), or the
phong lighting function applied to the color varying, carrying its
bound normal attribute, light direction, light color and ambient
term. -/
inductive FragColor where
  | plain
  | phong (normal : List Vec3) (light_dir : Vec3) (light_color : RGBA) (ambient : RGBA)
deriving DecidableEq, Repr

/-- The observable state of a `Mesh` visual: the stored mesh data and
uniform color, the shading mode, the GPU-side buffers (`_vertices`,
`_normals`, `_faces`, `_colors`), the representation flag `_indexed`,
the dirty flag `_data_changed`, and the program bindings made by
`_update_data` (position, the color varying, the fragment color). -/
structure VisualState where
  meshdata : MeshData
  color : RGBA
  shading : Option Shading
  vertices : List Vec3
  normals : List Vec3
  facesBuf : List Face
  colors : List RGBA
  indexed : Option Bool
  data_changed : Bool
  position : List (ℚ × ℚ × ℚ × ℚ)
  colorVar : Option ColorSource
  fragColor : Option FragColor
deriving DecidableEq, Repr

/-- `vec3to4`: lift a position to homogeneous form with w = 1. -/
def vec3to4 (v : Vec3) : ℚ × ℚ × ℚ × ℚ := (v.1, v.2.1, v.2.2, 1)

/-- Modelled from the spec: constructing a `MeshData` from the
`set_data` keyword arguments (`None` geometry arguments yield an empty
mesh; shared vertices and faces carry no face-only data). -/
def mkMeshData (vertices : Option (List Vec3)) (faces : Option (List Face))
    (vertex_colors : Option (List RGBA)) (face_colors : Option (List RGBA)) : MeshData :=
  { verts := vertices.getD []
    faces := faces.getD []
    vertex_colors := vertex_colors
    face_colors := face_colors
    face_indexed_data := false }

/-- `Mesh.mesh_data_changed`: raise the dirty flag (the subsequent
`self.update()` only schedules a draw, which is external). -/
def mesh_data_changed (s : VisualState) : VisualState :=
  { s with data_changed := true }

/-- `Mesh.set_data`: a supplied `meshdata` replaces the stored mesh and
the other geometry arguments are ignored; otherwise a new `MeshData` is
built from them.  A supplied `color` replaces the uniform color.
Finally the dirty flag is raised. -/
def set_data (s : VisualState) (vertices : Option (List Vec3)) (faces : Option (List Face))
    (vertex_colors : Option (List RGBA)) (face_colors : Option (List RGBA))
    (meshdata : Option MeshData) (color : Option RGBA) : VisualState :=
  let s :=
    match meshdata with
    | some md => { s with meshdata := md }
    | none =>
        { s with meshdata := mkMeshData vertices faces vertex_colors face_colors }
  let s :=
    match color with
    | some c => { s with color := c }
    | none => s
  mesh_data_changed s

/-- The `shading` property setter: `assert value in (None, 'flat',
'smooth')`, then store.  Returns the state after the call and whether
it succeeded; a failing assert raises before any assignment, leaving
the stored mode unchanged. -/
def set_shading (s : VisualState) (v : ShadingVal) : VisualState × Bool :=
  match v with
  | .vnone => ({ s with shading := none }, true)
  | .vflat => ({ s with shading := some .flat }, true)
  | .vsmooth => ({ s with shading := some .smooth }, true)
  | .other _ => (s, false)

/-- The tail of `_update_data` (source lines 155-182): bind the program
position input to the lifted vertex buffer, bind the color varying to
the uniform color or to the color attribute buffer, and bind the
fragment color to the varying directly (`shading is None`) or to the
phong function with its normal input and the fixed light defaults. -/
def bind_program (s : VisualState) : VisualState :=
  let s := { s with position := s.vertices.map vec3to4 }
  let src :=
    if !s.meshdata.has_vertex_color && !s.meshdata.has_face_color then
      ColorSource.uniform s.color
    else
      ColorSource.attrib s.colors
  let s := { s with colorVar := some src }
  match s.shading with
  | none => { s with fragColor := some .plain }
  | some _ =>
      { s with fragColor := some (.phong s.normals (1, 1, 1) (1, 1, 1, 1)
          (mkRat 3 10, mkRat 3 10, mkRat 3 10, 1)) }

/-- `Mesh._update_data` (source lines 128-182), with the container's
fallible derivations surfaced: the returned boolean is `false` when the
container raised, and the returned state is the object state at that
point (Python mutations made before the raise persist). -/
def update_data (s : VisualState) : VisualState × Bool :=
  let md := s.meshdata
  if s.shading = some .smooth ∧ md.face_indexed_data = false then
    -- indexed representation
    let s := { s with vertices := md.verts }
    match md.vertex_normals with
    | none => (s, false)
    | some vns =>
      let s := { s with normals := vns }
      let s := { s with facesBuf := md.faces }
      let s := { s with indexed := some true }
      let s := if md.has_vertex_color then { s with colors := md.vertex_colors_arr } else s
      let s := if md.has_face_color then { s with colors := md.face_colors_arr } else s
      (bind_program s, true)
  else
    -- expanded representation
    match md.vertices_indexed with
    | none => (s, false)
    | some v =>
      let s := { s with vertices := v }
      let step :=
        if s.shading = some .smooth then
          (md.vertex_normals_indexed).map fun ns => { s with normals := ns }
        else if s.shading = some .flat then
          (md.face_normals_indexed).map fun ns => { s with normals := ns }
        else some s
      match step with
      | none => (s, false)
      | some s =>
        let s := { s with indexed := some false }
        let cstep :=
          if md.has_vertex_color then
            (md.vertex_colors_indexed).map fun cs => { s with colors := cs }
          else if md.has_face_color then
            some { s with colors := md.face_colors_indexed }
          else some s
        match cstep with
        | none => (s, false)
        | some s => (bind_program s, true)

/-- `Mesh.draw`: if the dirty flag is up, materialize; the flag is
never lowered by the source.  Returns the state after the call and
whether `_update_data` ran during it.  (The per-draw transform rebind
and the GL submission are external.) -/
def draw (s : VisualState) : VisualState × Bool :=
  if s.data_changed then ((update_data s).1, true) else (s, false)

/-- `Mesh.__init__`: fresh buffers (300 zero vertices, empty normals /
faces / colors), no representation flag, the given uniform color and
shading mode, then `set_data` with the given geometry. -/
def initState (vertices : Option (List Vec3)) (faces : Option (List Face))
    (vertex_colors : Option (List RGBA)) (face_colors : Option (List RGBA))
    (color : RGBA) (meshdata : Option MeshData) (shading : Option Shading) : VisualState :=
  let s : VisualState :=
    { meshdata := mkMeshData none none none none
      color := color
      shading := shading
      vertices := List.replicate 300 (0, 0, 0)
      normals := []
      facesBuf := []
      colors := []
      indexed := none
      data_changed := false
      position := []
      colorVar := none
      fragColor := none }
  set_data s vertices faces vertex_colors face_colors meshdata none

/-- A convenient constructor: a visual built around a ready `MeshData`
(the `meshdata=` keyword path of `__init__`). -/
def init_with (md : MeshData) (c : RGBA) (sh : Option Shading) : VisualState :=
  initState none none none none c (some md) sh

/-! ## The phong lighting formula over the reals

`phong_template` is a GLSL snippet; its arithmetic is modelled over ℝ
(`normalize` involves a square root).  `phong_shading` is the direct
translation of the template; `phong_shading_claim` is, separately, the
computation as the specification words it, to be compared with the
former. -/

/-- A 3-vector of reals (shader `vec3`). -/
structure Vec3R where
  x : ℝ
  y : ℝ
  z : ℝ

/-- A 4-vector of reals (shader `vec4`). -/
structure Vec4R where
  x : ℝ
  y : ℝ
  z : ℝ
  w : ℝ

/-- GLSL `dot` on `vec3`. -/
def dot3 (a b : Vec3R) : ℝ := a.x * b.x + a.y * b.y + a.z * b.z

/-- GLSL `normalize` on `vec3`: the vector divided by its length. -/
noncomputable def normalize3 (v : Vec3R) : Vec3R :=
  let l := Real.sqrt (dot3 v v)
  ⟨v.x / l, v.y / l, v.z / l⟩

/-- GLSL `reflect(I, N) = I - 2 dot(N, I) N`. -/
def reflect3 (i n : Vec3R) : Vec3R :=
  ⟨i.x - 2 * dot3 n i * n.x, i.y - 2 * dot3 n i * n.y, i.z - 2 * dot3 n i * n.z⟩

/-- A `vec4` scaled by a scalar. -/
def scale4 (v : Vec4R) (t : ℝ) : Vec4R := ⟨v.x * t, v.y * t, v.z * t, v.w * t⟩

/-- Componentwise sum of `vec4`s. -/
def add4 (a b : Vec4R) : Vec4R := ⟨a.x + b.x, a.y + b.y, a.z + b.z, a.w + b.w⟩

/-- Componentwise (GLSL) product of `vec4`s. -/
def mul4 (a b : Vec4R) : Vec4R := ⟨a.x * b.x, a.y * b.y, a.z * b.z, a.w * b.w⟩

/-- Overwrite the alpha component (`diffuse.a = 1.0`). -/
def setAlpha (v : Vec4R) (a : ℝ) : Vec4R := ⟨v.x, v.y, v.z, a⟩

/-- `phong_template`, translated statement by statement: normalize the
normal and light direction; clamp `dot(light, norm)` at zero; diffuse
is the light color so scaled, with alpha forced to one; clamp
`dot(reflect(light, norm), vec3(0,0,1))` at zero; specular is the
light color times `5 * p^100`; result is
`color * (ambient + diffuse) + specular`. -/
noncomputable def phong_shading (color : Vec4R) (normal light_dir : Vec3R)
    (light_color ambient : Vec4R) : Vec4R :=
  let norm := normalize3 normal
  let light := normalize3 light_dir
  let p := dot3 light norm
  let p := if p < 0 then 0 else p
  let diffuse := scale4 light_color p
  let diffuse := setAlpha diffuse 1
  let q := dot3 (reflect3 light norm) ⟨0, 0, 1⟩
  let q := if q < 0 then 0 else q
  let specular := scale4 light_color (5 * q ^ (100 : ℕ))
  add4 (mul4 color (add4 ambient diffuse)) specular

/-- The view axis named by the specification (the z axis). -/
def viewAxis : Vec3R := ⟨0, 0, 1⟩

/-- The lighting computation as the specification words it: normalize
normal and light direction; diffuse term = light color ×
max(0, dot(light, normal)), with alpha forced to 1; specular term =
light color × 5 × max(0, dot(reflect(light, normal), view-axis))^100;
output = colorValue × (ambient + diffuse) + specular. -/
noncomputable def phong_shading_claim (color : Vec4R) (normal light_dir : Vec3R)
    (light_color ambient : Vec4R) : Vec4R :=
  let n := normalize3 normal
  let l := normalize3 light_dir
  let diffuse := setAlpha (scale4 light_color (max 0 (dot3 l n))) 1
  let specular := scale4 light_color (5 * (max 0 (dot3 (reflect3 l n) viewAxis)) ^ (100 : ℕ))
  add4 (mul4 color (add4 ambient diffuse)) specular

/-! ## Helper lemmas -/

namespace MeshData

lemma concat3_cons {α : Type} (g : Face → List α) (t : Face) (ts : List Face) :
    concat3 g (t :: ts) = g t ++ concat3 g ts := rfl

lemma concat3_length {α : Type} (g : Face → List α) (h3 : ∀ t, (g t).length = 3)
    (l : List Face) : (concat3 g l).length = 3 * l.length := by
  induction l with
  | nil => rfl
  | cons t ts ih =>
    rw [concat3_cons, List.length_append, h3 t, ih, List.length_cons]
    ring

lemma concat3_getElem3 {α : Type} (g : Face → List α) (h3 : ∀ t, (g t).length = 3)
    (l : List Face) (d : Face) (i j : ℕ) (hi : i < l.length) (hj : j < 3) :
    (concat3 g l)[3 * i + j]? = (g (l.getD i d))[j]? := by
  induction l generalizing i with
  | nil => simp at hi
  | cons t ts ih =>
    cases i with
    | zero =>
      rw [concat3_cons, List.getElem?_append, if_pos (by rw [h3 t]; omega)]
      simp [List.getD]
    | succ i =>
      rw [concat3_cons, List.getElem?_append, if_neg (by rw [h3 t]; omega)]
      have h1 : 3 * (i + 1) + j - (g t).length = 3 * i + j := by rw [h3 t]; omega
      rw [h1, ih i (by simpa using hi)]
      simp [List.getD]

lemma triple_getElem {α : Type} (a : α) (j : ℕ) (hj : j < 3) :
    ([a, a, a] : List α)[j]? = some a := by
  interval_cases j <;> rfl

end MeshData

/-! ## Claim theorems -/

/-- C4: for every mesh with shading mode 'flat', materialization
selects the expanded representation (no index array is emitted: the
representation flag is `false`, so the draw call is non-indexed), and
the emitted normal array has length 3 times the face count, with each
of the 3 corners of face `i` carrying face `i`'s normal. -/
theorem flat_shading_expanded (s : VisualState)
    (hsh : s.shading = some .flat)
    (hv : s.meshdata.validFaces = true) :
    (update_data s).2 = true ∧
    (update_data s).1.indexed = some false ∧
    (update_data s).1.normals.length = 3 * s.meshdata.faces.length ∧
    (∀ i j, i < s.meshdata.faces.length → j < 3 →
      (update_data s).1.normals[3 * i + j]?
        = some (s.meshdata.faceNormal (s.meshdata.faces.getD i (0, 0, 0)))) := by
  have h3 : ∀ t, ((fun t => [s.meshdata.faceNormal t, s.meshdata.faceNormal t,
      s.meshdata.faceNormal t]) t).length = 3 := fun t => rfl
  cases hvc : s.meshdata.has_vertex_color <;> cases hfc : s.meshdata.has_face_color <;>
    (simp only [update_data, bind_program, MeshData.vertices_indexed,
      MeshData.face_normals_indexed, MeshData.vertex_colors_indexed,
      MeshData.vertex_normals_indexed, hsh, hv, hvc, hfc, if_true, if_false];
     simp;
     refine ⟨MeshData.concat3_length _ h3 _, ?_⟩;
     intro i j hi hj;
     rw [MeshData.concat3_getElem3 _ h3 _ (0, 0, 0) i j hi hj,
       MeshData.triple_getElem _ j hj];
     simp [List.getD])

/-- A tetrahedron with no colors, used as a concrete test mesh. -/
def mdTetra : MeshData :=
  { verts := [(0, 0, 0), (1, 0, 0), (0, 1, 0), (0, 0, 1)]
    faces := [(0, 1, 2), (0, 1, 3), (0, 2, 3), (1, 2, 3)]
    vertex_colors := none
    face_colors := none
    face_indexed_data := false }

/-- The tetrahedron visual with flat shading and a red uniform color. -/
def sFlat : VisualState := init_with mdTetra (1, 0, 0, 1) (some .flat)

/-- Witness for C4: the flat-shaded tetrahedron satisfies the
hypotheses and the conclusion of `flat_shading_expanded`. -/
theorem flat_shading_expanded_witness :
    sFlat.shading = some .flat ∧ sFlat.meshdata.validFaces = true ∧
    ((update_data sFlat).2 = true ∧
     (update_data sFlat).1.indexed = some false ∧
     (update_data sFlat).1.normals.length = 3 * sFlat.meshdata.faces.length ∧
     (∀ i j, i < sFlat.meshdata.faces.length → j < 3 →
       (update_data sFlat).1.normals[3 * i + j]?
         = some (sFlat.meshdata.faceNormal (sFlat.meshdata.faces.getD i (0, 0, 0))))) :=
  ⟨by decide, by decide, flat_shading_expanded sFlat (by decide) (by decide)⟩

/-- C3: for every mesh with no face-only per-vertex data and shading
mode 'smooth', materialization selects the indexed representation: it
emits the mesh's vertex array unchanged, the derived per-vertex
normals, and the face index array; and when only per-vertex colors are
present the emitted color array is the per-vertex color array, whose
length equals the vertex count (given the container invariant that
per-vertex colors have one entry per vertex). -/
theorem smooth_indexed_materialization (s : VisualState)
    (hsh : s.shading = some .smooth)
    (hfid : s.meshdata.face_indexed_data = false)
    (hv : s.meshdata.validFaces = true)
    (hlen : ∀ cs, s.meshdata.vertex_colors = some cs →
      cs.length = s.meshdata.verts.length) :
    (update_data s).2 = true ∧
    (update_data s).1.indexed = some true ∧
    (update_data s).1.vertices = s.meshdata.verts ∧
    (update_data s).1.normals
      = (List.range s.meshdata.verts.length).map s.meshdata.vertexNormal ∧
    (update_data s).1.facesBuf = s.meshdata.faces ∧
    (s.meshdata.has_vertex_color = true → s.meshdata.has_face_color = false →
      (update_data s).1.colors = s.meshdata.vertex_colors_arr ∧
      (update_data s).1.colors.length = s.meshdata.verts.length) := by
  cases hvc : s.meshdata.has_vertex_color <;> cases hfc : s.meshdata.has_face_color <;>
    simp only [update_data, bind_program, MeshData.vertex_normals,
      hsh, hfid, hv, hvc, hfc, if_true, if_false] <;> simp
  obtain ⟨cs, hcs⟩ := Option.isSome_iff_exists.mp hvc
  simp [MeshData.vertex_colors_arr, hcs, hlen cs hcs]

/-- A triangle mesh carrying only per-vertex colors. -/
def mdVColored : MeshData :=
  { verts := [(0, 0, 0), (1, 0, 0), (0, 1, 0)]
    faces := [(0, 1, 2)]
    vertex_colors := some [(1, 0, 0, 1), (0, 1, 0, 1), (0, 0, 1, 1)]
    face_colors := none
    face_indexed_data := false }

/-- The per-vertex-colored triangle with smooth shading. -/
def sSmooth : VisualState := init_with mdVColored (1, 1, 1, 1) (some .smooth)

/-- Witness for C3: the smooth-shaded per-vertex-colored triangle
satisfies the hypotheses and the conclusion of
`smooth_indexed_materialization`. -/
theorem smooth_indexed_materialization_witness :
    sSmooth.shading = some .smooth ∧
    sSmooth.meshdata.face_indexed_data = false ∧
    sSmooth.meshdata.validFaces = true ∧
    sSmooth.meshdata.vertex_colors
      = some [(1, 0, 0, 1), (0, 1, 0, 1), (0, 0, 1, 1)] ∧
    ((update_data sSmooth).2 = true ∧
     (update_data sSmooth).1.indexed = some true ∧
     (update_data sSmooth).1.vertices = sSmooth.meshdata.verts ∧
     (update_data sSmooth).1.normals
       = (List.range sSmooth.meshdata.verts.length).map sSmooth.meshdata.vertexNormal ∧
     (update_data sSmooth).1.facesBuf = sSmooth.meshdata.faces ∧
     (sSmooth.meshdata.has_vertex_color = true →
      sSmooth.meshdata.has_face_color = false →
       (update_data sSmooth).1.colors = sSmooth.meshdata.vertex_colors_arr ∧
       (update_data sSmooth).1.colors.length = sSmooth.meshdata.verts.length)) :=
  ⟨by decide, by decide, by decide, by decide,
   smooth_indexed_materialization sSmooth (by decide) (by decide) (by decide)
     (by intro cs hcs; injection hcs with h; rw [← h]; decide)⟩

/-- A triangle mesh supplying both per-vertex colors (red) and a
per-face color (blue). -/
def mdBothColors : MeshData :=
  { verts := [(0, 0, 0), (1, 0, 0), (0, 1, 0)]
    faces := [(0, 1, 2)]
    vertex_colors := some [(1, 0, 0, 1), (1, 0, 0, 1), (1, 0, 0, 1)]
    face_colors := some [(0, 0, 1, 1)]
    face_indexed_data := false }

/-- The doubly-colored triangle with smooth shading (indexed path). -/
def sBothSmooth : VisualState := init_with mdBothColors (1, 1, 1, 1) (some .smooth)

/-- The doubly-colored triangle with flat shading (expanded path). -/
def sBothFlat : VisualState := init_with mdBothColors (1, 1, 1, 1) (some .flat)

/-- Counterexample to C1: on a mesh with both per-vertex (red) and
per-face (blue) colors, smooth shading and shared vertex data, the
materialized color array is the per-face color array (blue), not the
per-vertex one — in the indexed branch the source writes vertex colors
and then overwrites them with face colors (`if`/`if`, not
`if`/`elif`). -/
theorem vertex_color_precedence_cex :
    (update_data sBothSmooth).2 = true ∧
    mdBothColors.has_vertex_color = true ∧
    mdBothColors.has_face_color = true ∧
    (update_data sBothSmooth).1.indexed = some true ∧
    (update_data sBothSmooth).1.colors = [(0, 0, 1, 1)] ∧
    (update_data sBothSmooth).1.colors ≠ mdBothColors.vertex_colors_arr ∧
    (update_data sBothSmooth).1.colorVar
      = some (.attrib [(0, 0, 1, 1)]) := by decide

/-- C1 amended: when a mesh supplies both per-vertex and per-face
colors, per-vertex colors take precedence only in the expanded
representation (the color array is the per-vertex colors indexed by
face); in the indexed representation (smooth shading, no face-only
data) the per-face colors are written last and win. -/
theorem color_precedence_amended (s : VisualState)
    (hv : s.meshdata.validFaces = true)
    (hvc : s.meshdata.has_vertex_color = true)
    (hfc : s.meshdata.has_face_color = true) :
    ((s.shading = some .smooth ∧ s.meshdata.face_indexed_data = false) →
      (update_data s).1.colors = s.meshdata.face_colors_arr) ∧
    (¬(s.shading = some .smooth ∧ s.meshdata.face_indexed_data = false) →
      (update_data s).1.colors
        = MeshData.concat3 (fun t =>
            [s.meshdata.vcolor t.1, s.meshdata.vcolor t.2.1,
             s.meshdata.vcolor t.2.2]) s.meshdata.faces) := by
  constructor
  · intro hcond
    simp [update_data, bind_program, MeshData.vertex_normals, hv,
      hcond.1, hcond.2, hvc, hfc]
  · intro hcond
    rcases hsh : s.shading with _ | m
    · simp [update_data, bind_program, MeshData.vertices_indexed,
        MeshData.vertex_colors_indexed, hv, hsh, hvc, hfc]
    · cases m with
      | flat =>
        simp [update_data, bind_program, MeshData.vertices_indexed,
          MeshData.face_normals_indexed, MeshData.vertex_colors_indexed,
          hv, hsh, hvc, hfc]
      | smooth =>
        rw [hsh] at hcond
        have hfid : s.meshdata.face_indexed_data = true := by
          by_contra h
          exact hcond ⟨rfl, by simpa using h⟩
        simp [update_data, bind_program, MeshData.vertices_indexed,
          MeshData.vertex_normals_indexed, MeshData.vertex_colors_indexed,
          hv, hsh, hfid, hvc, hfc]

/-- Witness for the amended C1: the doubly-colored triangle with flat
shading takes the expanded path, and its materialized color array is
the per-vertex colors indexed by face. -/
theorem color_precedence_amended_witness :
    sBothFlat.meshdata.validFaces = true ∧
    sBothFlat.meshdata.has_vertex_color = true ∧
    sBothFlat.meshdata.has_face_color = true ∧
    ¬(sBothFlat.shading = some .smooth ∧
        sBothFlat.meshdata.face_indexed_data = false) ∧
    (update_data sBothFlat).1.colors
      = MeshData.concat3 (fun t =>
          [sBothFlat.meshdata.vcolor t.1, sBothFlat.meshdata.vcolor t.2.1,
           sBothFlat.meshdata.vcolor t.2.2]) sBothFlat.meshdata.faces :=
  ⟨by decide, by decide, by decide, by decide,
   (color_precedence_amended sBothFlat (by decide) (by decide) (by decide)).2
     (by decide)⟩

/-- The default-constructed visual: no geometry arguments, the default
uniform color `(0.5, 0.5, 1, 1)`, `shading=None`. -/
def sDefault : VisualState :=
  initState none none none none (mkRat 1 2, mkRat 1 2, 1, 1) none none

/-- C2 (behaviour at the failing input): after construction (one
`set_data`) and two draws with no `set_data` in between, `_update_data`
runs during *both* draws — the source consults `_data_changed` in
`draw` but never clears it — although the two draws do produce
identical state (buffers and bindings).  This contradicts the claim
that materialization runs exactly once across the two draws. -/
theorem draw_reruns_materialization :
    sDefault.data_changed = true ∧
    (draw sDefault).2 = true ∧
    (draw sDefault).1.data_changed = true ∧
    (draw (draw sDefault).1).2 = true ∧
    (draw (draw sDefault).1).1 = (draw sDefault).1 := by decide

/-- The shape of a successful materialization, for any state whose
mesh has in-range faces: it succeeds, binds the color varying to the
uniform color exactly when the mesh carries no colors (and to the
materialized color attribute otherwise), and binds the fragment color
to the plain varying for `shading=None` and to the phong function with
the fixed light defaults otherwise. -/
lemma update_data_shape (s : VisualState) (hv : s.meshdata.validFaces = true) :
    (update_data s).2 = true ∧
    (update_data s).1.colorVar
      = some (if !s.meshdata.has_vertex_color && !s.meshdata.has_face_color then
          ColorSource.uniform s.color
        else ColorSource.attrib (update_data s).1.colors) ∧
    (update_data s).1.fragColor
      = some (match s.shading with
          | none => FragColor.plain
          | some _ => FragColor.phong (update_data s).1.normals (1, 1, 1)
              (1, 1, 1, 1) (mkRat 3 10, mkRat 3 10, mkRat 3 10, 1)) := by
  cases hsh : s.shading with
  | none =>
    cases hvc : s.meshdata.has_vertex_color <;>
      cases hfc : s.meshdata.has_face_color <;>
      simp [update_data, bind_program, MeshData.vertices_indexed,
        MeshData.vertex_colors_indexed, hv, hsh, hvc, hfc]
  | some m =>
    cases m with
    | flat =>
      cases hvc : s.meshdata.has_vertex_color <;>
        cases hfc : s.meshdata.has_face_color <;>
        simp [update_data, bind_program, MeshData.vertices_indexed,
          MeshData.face_normals_indexed, MeshData.vertex_colors_indexed,
          hv, hsh, hvc, hfc]
    | smooth =>
      cases hfid : s.meshdata.face_indexed_data <;>
        cases hvc : s.meshdata.has_vertex_color <;>
        cases hfc : s.meshdata.has_face_color <;>
        simp [update_data, bind_program, MeshData.vertex_normals,
          MeshData.vertices_indexed, MeshData.vertex_normals_indexed,
          MeshData.vertex_colors_indexed, hv, hsh, hfid, hvc, hfc]

/-- C5: materializing a freshly constructed visual with `shading=None`
succeeds for any mesh with in-range faces and any uniform color, leaves
the normal array empty, and binds the fragment color to the color
varying unchanged — the color varying being the uniform color when the
mesh carries no colors and the color attribute array otherwise. -/
theorem shading_none_passthrough (md : MeshData) (c : RGBA)
    (hv : md.validFaces = true) :
    (update_data (init_with md c none)).2 = true ∧
    (update_data (init_with md c none)).1.normals = [] ∧
    (update_data (init_with md c none)).1.fragColor = some .plain ∧
    (md.has_vertex_color = false → md.has_face_color = false →
      (update_data (init_with md c none)).1.colorVar = some (.uniform c)) ∧
    ((md.has_vertex_color = true ∨ md.has_face_color = true) →
      (update_data (init_with md c none)).1.colorVar
        = some (.attrib (update_data (init_with md c none)).1.colors)) := by
  have h1 : (init_with md c none).meshdata = md := rfl
  have h2 : (init_with md c none).shading = none := rfl
  have h3 : (init_with md c none).normals = [] := rfl
  have h4 : (init_with md c none).color = c := rfl
  cases hvc : md.has_vertex_color <;> cases hfc : md.has_face_color <;>
    simp [update_data, bind_program, MeshData.vertices_indexed,
      MeshData.vertex_colors_indexed, h1, h2, h3, h4, hv, hvc, hfc]

/-- Witness for C5: the per-vertex-colored triangle with `shading=None`
materializes with empty normals, a plain fragment color, and the color
varying bound to the color attribute. -/
theorem shading_none_passthrough_witness :
    mdVColored.validFaces = true ∧
    ((update_data (init_with mdVColored (1, 1, 1, 1) none)).2 = true ∧
     (update_data (init_with mdVColored (1, 1, 1, 1) none)).1.normals = [] ∧
     (update_data (init_with mdVColored (1, 1, 1, 1) none)).1.fragColor
       = some .plain ∧
     (mdVColored.has_vertex_color = false → mdVColored.has_face_color = false →
       (update_data (init_with mdVColored (1, 1, 1, 1) none)).1.colorVar
         = some (.uniform (1, 1, 1, 1))) ∧
     ((mdVColored.has_vertex_color = true ∨ mdVColored.has_face_color = true) →
       (update_data (init_with mdVColored (1, 1, 1, 1) none)).1.colorVar
         = some (.attrib
             (update_data (init_with mdVColored (1, 1, 1, 1) none)).1.colors))) :=
  ⟨by decide, shading_none_passthrough mdVColored (1, 1, 1, 1) (by decide)⟩

/-- C6: for every state whose mesh has in-range faces, materialization
binds the color varying to the uniform RGBA constant if and only if the
mesh has neither per-vertex nor per-face colors, and to the
materialized color attribute array if and only if it has either; the
binding in effect is always exactly one of the two. -/
theorem color_binding_selection (s : VisualState)
    (hv : s.meshdata.validFaces = true) :
    ((update_data s).1.colorVar = some (.uniform s.color) ↔
      (s.meshdata.has_vertex_color = false ∧ s.meshdata.has_face_color = false)) ∧
    ((∃ l, (update_data s).1.colorVar = some (.attrib l)) ↔
      (s.meshdata.has_vertex_color = true ∨ s.meshdata.has_face_color = true)) ∧
    ((update_data s).1.colorVar = some (.uniform s.color) ∨
      (update_data s).1.colorVar = some (.attrib (update_data s).1.colors)) ∧
    ¬((update_data s).1.colorVar = some (.uniform s.color) ∧
      ∃ l, (update_data s).1.colorVar = some (.attrib l)) := by
  obtain ⟨-, hcv, -⟩ := update_data_shape s hv
  cases hvc : s.meshdata.has_vertex_color <;>
    cases hfc : s.meshdata.has_face_color <;>
    rw [hvc, hfc] at hcv <;> simp at hcv <;> simp [hcv, hvc, hfc]

/-- Witness for C6: on the uncolored tetrahedron with flat shading the
color varying is bound to the uniform color (and not to an attribute
array). -/
theorem color_binding_selection_witness :
    sFlat.meshdata.validFaces = true ∧
    ((update_data sFlat).1.colorVar = some (.uniform sFlat.color) ↔
      (sFlat.meshdata.has_vertex_color = false ∧
       sFlat.meshdata.has_face_color = false)) ∧
    ((∃ l, (update_data sFlat).1.colorVar = some (.attrib l)) ↔
      (sFlat.meshdata.has_vertex_color = true ∨
       sFlat.meshdata.has_face_color = true)) :=
  ⟨by decide,
   (color_binding_selection sFlat (by decide)).1,
   (color_binding_selection sFlat (by decide)).2.1⟩

/-- C7: the phong template computes exactly what the specification
describes (diffuse = light color × max(0, dot(light, normal)) with
alpha forced to 1; specular = light color × 5 × max(0,
dot(reflect(light, normal), view-axis))^100; output = colorValue ×
(ambient + diffuse) + specular), and every materialization with a lit
shading mode ('flat' or 'smooth') binds the fragment color to the
phong function with its normal input bound to the normal buffer, light
direction (1,1,1), light color (1,1,1,1) and ambient
(0.3, 0.3, 0.3, 1.0). -/
theorem phong_lighting_pipeline :
    (∀ (color : Vec4R) (normal light_dir : Vec3R) (light_color ambient : Vec4R),
      phong_shading color normal light_dir light_color ambient
        = phong_shading_claim color normal light_dir light_color ambient) ∧
    (∀ (s : VisualState) (m : Shading), s.meshdata.validFaces = true →
      s.shading = some m →
      (update_data s).1.fragColor
        = some (.phong (update_data s).1.normals (1, 1, 1) (1, 1, 1, 1)
            (mkRat 3 10, mkRat 3 10, mkRat 3 10, 1))) := by
  constructor
  · intro color normal light_dir light_color ambient
    have hmax : ∀ p : ℝ, (if p < 0 then 0 else p) = max 0 p := by
      intro p
      rcases le_or_lt 0 p with h | h
      · rw [if_neg (not_lt.mpr h), max_eq_right h]
      · rw [if_pos h, max_eq_left h.le]
    simp only [phong_shading, phong_shading_claim, viewAxis, hmax]
  · intro s m hv hsh
    obtain ⟨-, -, hfrag⟩ := update_data_shape s hv
    rw [hsh] at hfrag
    exact hfrag

/-- Witness for C7: the flat-shaded tetrahedron's fragment color is
bound to the phong function with the fixed light defaults. -/
theorem phong_lighting_pipeline_witness :
    sFlat.meshdata.validFaces = true ∧ sFlat.shading = some .flat ∧
    (update_data sFlat).1.fragColor
      = some (.phong (update_data sFlat).1.normals (1, 1, 1) (1, 1, 1, 1)
          (mkRat 3 10, mkRat 3 10, mkRat 3 10, 1)) :=
  ⟨by decide, by decide,
   phong_lighting_pipeline.2 sFlat .flat (by decide) (by decide)⟩

/-- A mesh whose single face references the out-of-range vertex
index 7; deriving normals or expanded arrays from it raises. -/
def mdBadFaces : MeshData :=
  { verts := [(5, 5, 5)]
    faces := [(0, 0, 7)]
    vertex_colors := none
    face_colors := none
    face_indexed_data := false }

/-- The visual after a successful smooth materialization of the
colored triangle (one draw), then a `set_data` that swaps in the mesh
with an out-of-range face. -/
def sStale : VisualState :=
  set_data (draw (init_with mdVColored (1, 1, 1, 1) (some .smooth))).1
    none none none none (some mdBadFaces) none

/-- Counterexample to C8: on `sStale` the materialization fails (the
container raises while deriving vertex normals), but the vertex buffer
has already been overwritten with the new mesh's vertices — the
previously materialized buffers are *not* all left unchanged. -/
theorem failed_materialization_cex :
    (update_data sStale).2 = false ∧
    (update_data sStale).1.vertices ≠ sStale.vertices ∧
    sStale.vertices = mdVColored.verts ∧
    (update_data sStale).1.vertices = mdBadFaces.verts := by decide

/-- C8 amended: a failed materialization leaves the dirty flag, the
representation flag, the mesh, and every buffer and program binding
except possibly the vertex buffer unchanged (in the smooth/indexed
path the vertex buffer is written before normals are derived, so it
may already hold the new data when the container raises). -/
theorem failed_materialization_state (s : VisualState)
    (hfail : (update_data s).2 = false) :
    (update_data s).1.normals = s.normals ∧
    (update_data s).1.facesBuf = s.facesBuf ∧
    (update_data s).1.colors = s.colors ∧
    (update_data s).1.indexed = s.indexed ∧
    (update_data s).1.colorVar = s.colorVar ∧
    (update_data s).1.fragColor = s.fragColor ∧
    (update_data s).1.data_changed = s.data_changed ∧
    (update_data s).1.meshdata = s.meshdata := by
  cases hvalid : s.meshdata.validFaces with
  | true =>
    have := (update_data_shape s hvalid).1
    rw [hfail] at this
    exact absurd this (by simp)
  | false =>
    by_cases hcond : s.shading = some Shading.smooth ∧
        s.meshdata.face_indexed_data = false
    · simp [update_data, MeshData.vertex_normals, hvalid, hcond.1, hcond.2]
    · simp only [update_data]
      rw [if_neg hcond]
      simp [MeshData.vertices_indexed, hvalid]

/-- Witness for the amended C8: on `sStale` the failed materialization
leaves all fields but the vertex buffer unchanged. -/
theorem failed_materialization_state_witness :
    (update_data sStale).2 = false ∧
    ((update_data sStale).1.normals = sStale.normals ∧
     (update_data sStale).1.facesBuf = sStale.facesBuf ∧
     (update_data sStale).1.colors = sStale.colors ∧
     (update_data sStale).1.indexed = sStale.indexed ∧
     (update_data sStale).1.colorVar = sStale.colorVar ∧
     (update_data sStale).1.fragColor = sStale.fragColor ∧
     (update_data sStale).1.data_changed = sStale.data_changed ∧
     (update_data sStale).1.meshdata = sStale.meshdata) :=
  ⟨by decide, failed_materialization_state sStale (by decide)⟩

/-- The stored shading mode a valid setter argument maps to. -/
def shadingOfVal : ShadingVal → Option Shading
  | .vnone => none
  | .vflat => some .flat
  | .vsmooth => some .smooth
  | .other _ => none

/-- C9: the `shading` setter fails exactly on values outside
{None, 'flat', 'smooth'} (the `assert` raises before any assignment,
leaving the whole state — in particular the stored mode — unchanged),
and on the three allowed values it succeeds and the getter then
returns exactly the value set. -/
theorem shading_setter_validation (s : VisualState) (v : ShadingVal) :
    ((set_shading s v).2 = false ↔ ∃ tag, v = .other tag) ∧
    (∀ tag, v = .other tag → (set_shading s v).1 = s) ∧
    ((set_shading s v).2 = true →
      (set_shading s v).1.shading = shadingOfVal v) := by
  cases v <;> simp [set_shading, shadingOfVal]

/-- Witness for C9: setting `shading` to an invalid value fails and
leaves the state unchanged; setting `'flat'` succeeds and the getter
returns `'flat'`. -/
theorem shading_setter_validation_witness :
    ((set_shading sDefault (.other "bogus")).2 = false ∧
     (set_shading sDefault (.other "bogus")).1 = sDefault) ∧
    ((set_shading sDefault .vflat).2 = true ∧
     (set_shading sDefault .vflat).1.shading = shadingOfVal .vflat) :=
  ⟨⟨(shading_setter_validation sDefault (.other "bogus")).1.mpr ⟨"bogus", rfl⟩,
    (shading_setter_validation sDefault (.other "bogus")).2.1 "bogus" rfl⟩,
   ⟨rfl, (shading_setter_validation sDefault .vflat).2.2 rfl⟩⟩

/-- C10: `set_data` with `meshdata` omitted unconditionally replaces
the stored mesh by one built from the vertices/faces/color arguments;
with all geometry arguments `None` the prior geometry is replaced by
an empty mesh (empty vertex and face lists), even when only a uniform
color is passed; and a supplied `meshdata` takes precedence, the other
geometry arguments being ignored. -/
theorem set_data_replaces_meshdata (s : VisualState) (v : Option (List Vec3))
    (f : Option (List Face)) (vc fc : Option (List RGBA)) (c : Option RGBA) :
    (set_data s v f vc fc none c).meshdata = mkMeshData v f vc fc ∧
    (set_data s none none none none none c).meshdata
      = mkMeshData none none none none ∧
    (mkMeshData none none none none).verts = [] ∧
    (mkMeshData none none none none).faces = [] ∧
    (∀ md, (set_data s v f vc fc (some md) c).meshdata = md) := by
  cases c <;> simp [set_data, mesh_data_changed, mkMeshData]

end MeshVisual
